import Mathlib

/-!
Shallow embedding of the coroaiphotobooth BETA2 AI-generation glue layer:
`src/lib/gemini.ts` (client-side preprocessing, provider selection and the
Gemini / OpenAI fallback flow) and the two serverless handlers
`src/api/generate-video.ts` and `src/api/generate-image-openai.ts`.

Network calls are abstracted as oracles (functions or `Except` values
supplied as arguments); everything else — truthiness checks, string
splitting, parseInt, selection branches, fallback chains, response-shape
probing and data-URI construction — is translated directly from the
TypeScript source.  JavaScript float arithmetic in the canvas resize
helper is modelled with exact rational arithmetic.
-/

/-! ## JavaScript primitives -/

/-- Truthiness of a JS value of type `string | undefined | null`:
falsy iff absent or the empty string. -/
def jsTruthy : Option String → Bool
  | none => false
  | some s => s != ""

/-- Truthiness of a JS value of type `number | undefined`: falsy iff absent
or zero (NaN is not representable here). -/
def jsTruthyNum : Option Int → Bool
  | none => false
  | some n => n != 0

/-- Does the character list start with the given pattern list? -/
def headMatches : List Char → List Char → Bool
  | [], _ => true
  | _ :: _, [] => false
  | p :: ps, c :: cs => p == c && headMatches ps cs

/-- Does the character list contain the pattern as a contiguous sublist? -/
def containsSub (pat : List Char) : List Char → Bool
  | [] => headMatches pat []
  | c :: cs => headMatches pat (c :: cs) || containsSub pat cs

/-- JS `s.includes(pat)` on strings. -/
def jsIncludes (s pat : String) : Bool :=
  containsSub pat.data s.data

/-- Characters strictly before the first comma. -/
def takeUntilComma : List Char → List Char
  | [] => []
  | c :: cs => if c == ',' then [] else c :: takeUntilComma cs

/-- Characters strictly after the first comma (everything, including later
commas); the whole list is dropped if no comma occurs. -/
def dropThroughComma : List Char → List Char
  | [] => []
  | c :: cs => if c == ',' then cs else dropThroughComma cs

/-- JS `s.split(',')[1]`: the segment strictly between the first and the
second comma (or up to the end when there is no second comma). -/
def splitCommaField1 (s : String) : String :=
  String.mk (takeUntilComma (dropThroughComma s.data))

/-- The base64-cleaning idiom of both API handlers:
`s.includes(',') ? s.split(',')[1] : s`. -/
def cleanCommaBase64 (s : String) : String :=
  if jsIncludes s "," then splitCommaField1 s else s

/-- JS `s.replace(/\\n/g, '\n')` on the character list: each two-character
sequence backslash-n becomes a newline. -/
def replaceEscNl : List Char → List Char
  | '\\' :: 'n' :: cs => '\n' :: replaceEscNl cs
  | c :: cs => c :: replaceEscNl cs
  | [] => []

/-- Normalization applied to `GCP_PRIVATE_KEY` before the truthiness check. -/
def gcpNormalizeKey (s : String) : String :=
  String.mk (replaceEscNl s.data)

/-- Approximation of the JS whitespace class used by `String.prototype.trim`. -/
def isJsSpace (c : Char) : Bool :=
  c == ' ' || c == '\t' || c == '\n' || c == '\r'

/-- Drop leading JS whitespace. -/
def dropLeadSpace : List Char → List Char
  | [] => []
  | c :: cs => if isJsSpace c then dropLeadSpace cs else c :: cs

/-- JS `s.trim()`. -/
def jsTrim (s : String) : String :=
  String.mk (List.reverse (dropLeadSpace (List.reverse (dropLeadSpace s.data))))

/-- Longest leading run of decimal digits. -/
def leadDigits : List Char → List Char
  | [] => []
  | c :: cs => if c.isDigit then c :: leadDigits cs else []

/-- Value of a digit list read left to right with accumulator. -/
def digitsToNatAux : Nat → List Char → Nat
  | acc, [] => acc
  | acc, c :: cs => digitsToNatAux (acc * 10 + (c.toNat - 48)) cs

/-- JS `parseInt(s)` restricted to decimal notation: an optional sign
followed by a longest digit run; `none` models NaN.  (The hexadecimal
`0x` form accepted by `parseInt` is irrelevant to the detector output
and not modelled.) -/
def parseIntJS (s : String) : Option Int :=
  match s.data with
  | [] => none
  | '-' :: cs =>
    let ds := leadDigits cs
    if ds.isEmpty then none else some (-(digitsToNatAux 0 ds : Int))
  | '+' :: cs =>
    let ds := leadDigits cs
    if ds.isEmpty then none else some ((digitsToNatAux 0 ds : Int))
  | cs =>
    let ds := leadDigits cs
    if ds.isEmpty then none else some ((digitsToNatAux 0 ds : Int))

/-- JS `Math.round (num / den)` for nonnegative `num` and positive `den`:
round half away from zero, i.e. floor of `num/den + 1/2`. -/
def jsRound (num den : Nat) : Nat :=
  (2 * num + den) / (2 * den)

/-! ## Image preprocessor — `resizeImageForOpenAI` (src/lib/gemini.ts 6-72)

Only the geometry of the canvas operations is embedded: the computed
canvas dimensions, the size and position of the drawn region, and the
mask canvas.  Pixel contents are outside the model except for the mask,
which the source leaves fully transparent (`clearRect` only). -/

structure ResizeGeometry where
  canvasW : Nat
  canvasH : Nat
  drawW : Nat
  drawH : Nat
  drawX : ℚ
  drawY : ℚ
  maskW : Nat
  maskH : Nat
  maskTransparent : Bool
  deriving Repr, DecidableEq

/-- Geometry computed by `resizeImageForOpenAI` for a decoded source image
of size `w × h` and target dimension `maxDim`.  The float expressions
`maxDim / ratio` and `maxDim * ratio` with `ratio = w / h` are modelled
exactly as `maxDim * h / w` and `maxDim * w / h`. -/
def resizeImageForOpenAI (w h maxDim : Nat) : ResizeGeometry :=
  let wh : Nat × Nat :=
    if w > h then
      if w > maxDim then (maxDim, jsRound (maxDim * h) w) else (w, h)
    else
      if h > maxDim then (jsRound (maxDim * w) h, maxDim) else (w, h)
  { canvasW := maxDim
    canvasH := maxDim
    drawW := wh.1
    drawH := wh.2
    drawX := ((maxDim : ℚ) - wh.1) / 2
    drawY := ((maxDim : ℚ) - wh.2) / 2
    maskW := maxDim
    maskH := maxDim
    maskTransparent := true }

/-! ## Gemini library — `src/lib/gemini.ts`

The `GoogleGenAI.models.generateContent` network call is an oracle
`gen : String → Bool → Except String GenResponse` taking the model id and
the `useProConfig` flag of `executeGenAI`; the subject-count detector call
is an oracle `detect : Except String (Option String)` giving the `text`
field of its response (or the thrown error); the OpenAI branch is covered
by a resize oracle and a fetch oracle.  An explicit trace of outbound
calls is returned alongside the result. -/

/-- Inline data part of a Gemini response candidate. -/
structure InlineData where
  data : String
  deriving Repr, DecidableEq

/-- One part of a Gemini candidate content. -/
structure GeminiPart where
  inlineData : Option InlineData
  deriving Repr, DecidableEq

/-- Content of a Gemini candidate. -/
structure GeminiContent where
  parts : List GeminiPart
  deriving Repr, DecidableEq

/-- One candidate of a Gemini generateContent response. -/
structure GeminiCandidate where
  content : GeminiContent
  deriving Repr, DecidableEq

/-- A Gemini generateContent response as read by `generateAIImage`. -/
structure GenResponse where
  candidates : Option (List GeminiCandidate)
  deriving Repr, DecidableEq

/-- Image data URI built by the Gemini extraction and the OpenAI handler. -/
def mkImageDataUri (b : String) : String :=
  "data:image/png;base64," ++ b

/-- Video data URI built by the video handler. -/
def mkVideoDataUri (b : String) : String :=
  "data:video/mp4;base64," ++ b

/-- Model id of the Gemini pro tier (src/lib/gemini.ts line 207). -/
def proImageModel : String := "gemini-3-pro-image-preview"

/-- Model id of the Gemini flash tier (src/lib/gemini.ts line 209). -/
def flashImageModel : String := "gemini-2.5-flash-image"

/-- Extraction of the first inline image from a Gemini response
(src/lib/gemini.ts 220-228): the first part of the first candidate that
carries `inlineData` becomes a png data URI; otherwise the error
thrown is the no-data message. -/
def extractImage (r : GenResponse) : Except String String :=
  match r.candidates with
  | some (c :: _) =>
    match c.content.parts.findSome? (fun p => p.inlineData.map (fun d => d.data)) with
    | some d => .ok (mkImageDataUri d)
    | none => .error "No image data returned from Gemini"
  | _ => .error "No image data returned from Gemini"

/-- Subject-count detector (src/lib/gemini.ts 74-97): parse the trimmed
text of the detection response as an integer; any thrown error, missing
or empty text, or NaN parse yields 1. -/
def detectPeopleCount (detect : Except String (Option String)) : Int :=
  match detect with
  | .error _ => 1
  | .ok t =>
    if jsTruthy t then
      match parseIntJS (jsTrim (t.getD "")) with
      | some n => n
      | none => 1
    else 1

/-- Trace events for outbound calls made by `generateAIImage`. -/
inductive CallEvent where
  | resizeCall
  | openaiFetch
  | detectorCall
  | geminiCall (model : String) (useProConfig : Bool)
  deriving Repr, DecidableEq

/-- The Gemini generation stage of `generateAIImage`
(src/lib/gemini.ts 204-228): call the pro tier when the selected model id
contains the substring pro, otherwise the flash tier; on a pro-tier
failure retry once with the flash tier; on a flash-tier failure rethrow.
The successful response then goes through `extractImage`. -/
def geminiPipeline (gen : String → Bool → Except String GenResponse)
    (selectedModel : String) : Except String String × List CallEvent :=
  if jsIncludes selectedModel "pro" then
    match gen proImageModel true with
    | .ok r => (extractImage r, [.geminiCall proImageModel true])
    | .error _ =>
      match gen flashImageModel false with
      | .ok r =>
        (extractImage r, [.geminiCall proImageModel true, .geminiCall flashImageModel false])
      | .error e2 =>
        (.error e2, [.geminiCall proImageModel true, .geminiCall flashImageModel false])
  else
    match gen flashImageModel false with
    | .ok r => (extractImage r, [.geminiCall flashImageModel false])
    | .error e => (.error e, [.geminiCall flashImageModel false])

/-- The stored settings fields read by `generateAIImage`
(src/lib/gemini.ts 101-113); `none` models an absent JSON field. -/
structure StoredSettings where
  selectedModel : Option String
  gptModelSize : Option String
  deriving Repr, DecidableEq

/-- Output of the resize oracle: the resized image and mask data URIs. -/
structure ResizedImages where
  image : String
  mask : String
  deriving Repr, DecidableEq

/-- Body sent to `/api/generate-image-openai` by the client
(src/lib/gemini.ts 125-130); the size is `none` when `parseInt` of the
stored size produced NaN. -/
structure OpenAIFetchBody where
  prompt : String
  imageBase64 : String
  maskBase64 : String
  size : Option Int
  deriving Repr, DecidableEq

/-- Fixed prompt suffix of the OpenAI branch (src/lib/gemini.ts 126). -/
def openAISuffix : String := " photorealistic, highly detailed, preserve identity"

/-- The OpenAI branch of `generateAIImage` (src/lib/gemini.ts 115-147).
Returns either the image produced by the server (first component `some`)
or, on any failure of the branch or when the selected model is not the
OpenAI id, the model id the Gemini section will run with. -/
def openAIPhase (prompt : String) (model0 : String) (gptSize : Option Int)
    (resizeOracle : Option Int → Except String ResizedImages)
    (fetchOpenAI : OpenAIFetchBody → Except String String) :
    Option String × String × List CallEvent :=
  if model0 = "gpt-image-1.5" then
    match resizeOracle gptSize with
    | .error _ => (none, "gemini-2.5-flash-image", [.resizeCall])
    | .ok imgs =>
      match fetchOpenAI
          { prompt := prompt ++ openAISuffix
            imageBase64 := imgs.image
            maskBase64 := imgs.mask
            size := gptSize } with
      | .ok img => (some img, model0, [.resizeCall, .openaiFetch])
      | .error _ => (none, "gemini-2.5-flash-image", [.resizeCall, .openaiFetch])
  else (none, model0, [])

/-- Mime type inferred for the source image (src/lib/gemini.ts 153). -/
def geminiMimeType (base64Source : String) : String :=
  if headMatches "data:image/png".data base64Source.data then "image/png" else "image/jpeg"

/-- The unconditional `base64Source.split(',')[1]` of src/lib/gemini.ts
line 154; `none` models the JS `undefined` produced when the source
contains no comma. -/
def geminiCleanBase64 (base64Source : String) : Option String :=
  if jsIncludes base64Source "," then some (splitCommaField1 base64Source) else none

/-- Error thrown when the client Gemini API key is missing
(src/lib/gemini.ts 150). -/
def apiKeyMissingMsg : String :=
  "API Key missing. Please create a .env file with API_KEY=AIzaSy..."

/-- Resolution of the stored model preference (src/lib/gemini.ts 101-109):
default to the flash image id, overridden by a truthy `selectedModel`
field of the parsed settings. -/
def storedModel (settings : Option StoredSettings) : String :=
  match settings with
  | some st =>
    if jsTruthy st.selectedModel then st.selectedModel.getD "" else "gemini-2.5-flash-image"
  | none => "gemini-2.5-flash-image"

/-- Resolution of the stored OpenAI render size (src/lib/gemini.ts
103-112): default 1024, overridden by `parseInt` of a truthy
`gptModelSize` field; `none` models NaN. -/
def storedGptSize (settings : Option StoredSettings) : Option Int :=
  match settings with
  | some st =>
    if jsTruthy st.gptModelSize then parseIntJS (st.gptModelSize.getD "") else some 1024
  | none => some 1024

/-- The full `generateAIImage` flow (src/lib/gemini.ts 99-233): resolve
the stored model preference, run the OpenAI branch when selected (falling
back to the Gemini flash id on its failure), check the client API key,
resolve the auto preference through the subject-count detector
(count > 1 chooses the pro id, otherwise the flash id), and run the
Gemini pipeline.  The outer try/catch of the source only logs and
rethrows, so errors propagate unchanged. -/
def generateAIImage (prompt : String)
    (settings : Option StoredSettings) (apiKey : Option String)
    (resizeOracle : Option Int → Except String ResizedImages)
    (fetchOpenAI : OpenAIFetchBody → Except String String)
    (detect : Except String (Option String))
    (gen : String → Bool → Except String GenResponse) :
    Except String String × List CallEvent :=
  match openAIPhase prompt (storedModel settings) (storedGptSize settings) resizeOracle fetchOpenAI with
  | (some img, _, tr) => (.ok img, tr)
  | (none, model1, tr) =>
    if jsTruthy apiKey then
      let resolved : String :=
        if model1 = "auto" then
          if detectPeopleCount detect > 1 then proImageModel else flashImageModel
        else model1
      let detTrace : List CallEvent := if model1 = "auto" then [.detectorCall] else []
      let out := geminiPipeline gen resolved
      (out.1, tr ++ detTrace ++ out.2)
    else (.error apiKeyMissingMsg, tr)

/-! ## OpenAI serverless handler — `src/api/generate-image-openai.ts`

The handler is split at its single outbound call: stage 1 covers
everything up to and including payload preparation and either replies
without any upstream call or hands the prepared upstream payload over;
stage 2 maps the upstream outcome to the HTTP reply. -/

/-- Request body of `/api/generate-image-openai`. -/
structure OpenAIBody where
  prompt : Option String
  imageBase64 : Option String
  maskBase64 : Option String
  size : Option Int
  deriving Repr, DecidableEq

/-- Payload the handler forwards to `openai.images.edit`: the prompt, the
cleaned base64 image and optional mask (decoded to buffers in the source;
base64 decoding is injective on the cleaned strings so the strings stand
for the buffers), and the size string. -/
structure OpenAIUpstream where
  prompt : String
  imageData : String
  maskData : Option String
  sizeStr : String
  deriving Repr, DecidableEq

/-- First stage outcome: either an HTTP reply issued before any upstream
call, or the upstream call with its payload. -/
inductive OpenAIStage1 where
  | replied (status : Nat) (error : Option String)
  | callOpenAI (p : OpenAIUpstream)
  deriving Repr, DecidableEq

/-- Size string preparation (src/api/generate-image-openai.ts line 58). -/
def openAISizeStr (size : Option Int) : String :=
  if jsTruthyNum size then
    toString (size.getD 0) ++ "x" ++ toString (size.getD 0)
  else "1024x1024"

/-- Stage 1 of `src/api/generate-image-openai.ts` (lines 9-70): CORS
preflight, method check, `OPENAI_API_KEY` check (before the body field
check), missing prompt/image check, then buffer and size preparation. -/
def openaiHandler1 (method : String) (apiKey : Option String)
    (body : OpenAIBody) : OpenAIStage1 :=
  if method = "OPTIONS" then .replied 200 none
  else if method ≠ "POST" then .replied 405 (some "Method not allowed")
  else if ¬ jsTruthy apiKey then
    .replied 500 (some "Server config error: OPENAI_API_KEY missing")
  else if ¬ (jsTruthy body.prompt ∧ jsTruthy body.imageBase64) then
    .replied 400 (some "Missing prompt or image")
  else
    .callOpenAI
      { prompt := body.prompt.getD ""
        imageData := cleanCommaBase64 (body.imageBase64.getD "")
        maskData :=
          if jsTruthy body.maskBase64 then some (cleanCommaBase64 (body.maskBase64.getD ""))
          else none
        sizeStr := openAISizeStr body.size }

/-- Stage 2 of `src/api/generate-image-openai.ts` (lines 62-80): a thrown
upstream error becomes a 500 with its message (or the generic message when
empty); a response without a truthy `b64_json` throws the no-image
message, also caught as a 500; otherwise a 200 with the png data URI. -/
def openaiHandler2 (upstream : Except String (Option String)) :
    Nat × Except String String :=
  match upstream with
  | .error e => (500, .error (if e = "" then "OpenAI Generation Failed" else e))
  | .ok b64 =>
    if jsTruthy b64 then (200, .ok (mkImageDataUri (b64.getD "")))
    else (500, .error "No image returned")

/-! ## Video serverless handler — `src/api/generate-video.ts`

Stage 1 covers lines 10-80: CORS preflight, method check, body field
check, credential check, and payload preparation; reaching `callVertex`
means the handler proceeds to construct `GoogleAuth` and call the Vertex
endpoint, while `replied` means the response was sent with no
authentication and no outbound call.  Stage 2 (lines 94-131) maps the
Vertex response to the HTTP reply. -/

/-- Request body of `/api/generate-video`. -/
structure VideoBody where
  image : Option String
  prompt : Option String
  aspectRatio : Option String
  deriving Repr, DecidableEq

/-- GCP environment variables read by the handler. -/
structure GcpEnv where
  projectId : Option String
  clientEmail : Option String
  privateKey : Option String
  deriving Repr, DecidableEq

/-- Instance payload the handler sends to the Vertex predict endpoint. -/
structure VertexPayload where
  prompt : String
  imageBytes : String
  aspectRatio : String
  deriving Repr, DecidableEq

/-- First stage outcome of the video handler. -/
inductive VideoStage1 where
  | replied (status : Nat) (error : Option String)
  | callVertex (p : VertexPayload)
  deriving Repr, DecidableEq

/-- Credential error message of the video handler (line 39). -/
def gcpMissingMsg : String :=
  "Server configuration error: Missing GCP Credentials. Please set GCP_PROJECT_ID, GCP_CLIENT_EMAIL, and GCP_PRIVATE_KEY in Vercel."

/-- Stage 1 of `src/api/generate-video.ts` (lines 10-80). -/
def videoHandler1 (method : String) (body : VideoBody) (env : GcpEnv) :
    VideoStage1 :=
  if method = "OPTIONS" then .replied 200 none
  else if method ≠ "POST" then .replied 405 (some "Method not allowed")
  else if ¬ (jsTruthy body.image ∧ jsTruthy body.prompt) then
    .replied 400 (some "Missing image or prompt")
  else if ¬ (jsTruthy env.projectId ∧ jsTruthy env.clientEmail ∧
      jsTruthy (env.privateKey.map gcpNormalizeKey)) then
    .replied 500 (some gcpMissingMsg)
  else
    .callVertex
      { prompt := body.prompt.getD ""
        imageBytes := cleanCommaBase64 (body.image.getD "")
        aspectRatio :=
          if jsTruthy body.aspectRatio then body.aspectRatio.getD "" else "9:16" }

/-- Object nested under the `video` key of a Vertex prediction. -/
structure VideoObj where
  bytesBase64Encoded : Option String
  deriving Repr, DecidableEq

/-- One element of the `predictions` array of a Vertex response: either a
bare JSON string or an object with the two probed optional fields. -/
inductive VideoPred where
  | str (s : String)
  | obj (bytesBase64Encoded : Option String) (video : Option VideoObj)
  deriving Repr, DecidableEq

/-- Shape probe of `src/api/generate-video.ts` (lines 103-118): with at
least one prediction, a bare string is taken as the payload; otherwise
the truthy `bytesBase64Encoded` field, else the truthy
`video.bytesBase64Encoded` field. -/
def probeVideoBase64 : List VideoPred → Option String
  | [] => none
  | p :: _ =>
    match p with
    | .str s => some s
    | .obj b v =>
      if jsTruthy b then b
      else
        match v with
        | some vo => if jsTruthy vo.bytesBase64Encoded then vo.bytesBase64Encoded else none
        | none => none

/-- No-data error message of the video handler (line 122). -/
def videoNoDataMsg : String := "No video data received from Vertex AI."

/-- Stage 2 of `src/api/generate-video.ts` (lines 94-131): a non-ok
response throws the upstream error message (or a status message), caught
as a 500; an ok response is probed, a non-truthy probe result yields the
no-data 500, and a truthy one the 200 with the mp4 data URI. -/
def videoHandler2 (respOk : Bool) (errMessage : Option String) (status : Nat)
    (preds : Option (List VideoPred)) : Nat × Except String String :=
  if respOk then
    let vb : Option String :=
      match preds with
      | some l => probeVideoBase64 l
      | none => none
    if jsTruthy vb then (200, .ok (mkVideoDataUri (vb.getD "")))
    else (500, .error videoNoDataMsg)
  else
    (500, .error
      (if jsTruthy errMessage then errMessage.getD ""
       else "Vertex AI API Failed with status " ++ toString status))

/-- Payloads carried by the three probed locations of a prediction, in
probe order: a bare string carries its value; an object carries the
truthy values of its `bytesBase64Encoded` field and of its
`video.bytesBase64Encoded` field. -/
def predPayloadSlots : VideoPred → List String
  | .str s => [s]
  | .obj b v =>
    (match b with
     | some s => if s != "" then [s] else []
     | none => []) ++
    (match v with
     | some vo =>
       match vo.bytesBase64Encoded with
       | some s => if s != "" then [s] else []
       | none => []
     | none => [])

/-! ## Claim theorems -/

/-- C6: for every POST request to the video endpoint carrying both image
and prompt, if any of the three GCP credential variables is absent the
handler replies HTTP 500 with the message naming the missing GCP
credentials, and the flow never reaches the authentication / Vertex call
stage (`VideoStage1.replied` is issued strictly before `GoogleAuth` is
constructed). -/
theorem claim_C6 (body : VideoBody) (env : GcpEnv)
    (himg : jsTruthy body.image = true) (hpr : jsTruthy body.prompt = true)
    (hmiss : env.projectId = none ∨ env.clientEmail = none ∨ env.privateKey = none) :
    videoHandler1 "POST" body env = .replied 500 (some gcpMissingMsg) := by
  have h3 : ¬ (jsTruthy env.projectId ∧ jsTruthy env.clientEmail ∧
      jsTruthy (env.privateKey.map gcpNormalizeKey)) := by
    rcases hmiss with h | h | h <;> simp [h, jsTruthy]
  simp [videoHandler1, himg, hpr, h3]

/-- Witness for C6 at a concrete request and environment. -/
theorem claim_C6_witness :
    jsTruthy (some "img64") = true ∧ jsTruthy (some "dance") = true ∧
    videoHandler1 "POST" ⟨some "img64", some "dance", none⟩ ⟨none, some "svc@x", some "key"⟩ =
      .replied 500 (some gcpMissingMsg) :=
  ⟨by decide, by decide,
    claim_C6 ⟨some "img64", some "dance", none⟩ ⟨none, some "svc@x", some "key"⟩
      (by decide) (by decide) (Or.inl rfl)⟩

/-- C3: a Vertex success response whose nonempty base64 payload sits at
exactly one of the three probed locations of the first prediction yields
the same extracted payload and the same mp4 data URI regardless of which
location carried it. -/
theorem claim_C3 (p : VideoPred) (rest : List VideoPred) (s : String)
    (hs : s ≠ "") (hloc : predPayloadSlots p = [s]) :
    videoHandler2 true none 200 (some (p :: rest)) = (200, .ok (mkVideoDataUri s)) := by
  have hprobe : probeVideoBase64 (p :: rest) = some s := by
    cases p with
    | str t =>
      simp only [predPayloadSlots, List.cons.injEq] at hloc
      simp [probeVideoBase64, hloc.1]
    | obj b v =>
      cases b with
      | none =>
        cases v with
        | none => simp [predPayloadSlots] at hloc
        | some vo =>
          cases hvo : vo.bytesBase64Encoded with
          | none => simp [predPayloadSlots, hvo] at hloc
          | some t =>
            by_cases ht : t = ""
            · simp [predPayloadSlots, hvo, ht] at hloc
            · simp only [predPayloadSlots, hvo, ht, bne_iff_ne, ne_eq, not_false_eq_true,
                if_true, List.nil_append, List.cons.injEq, if_pos] at hloc
              simp_all [probeVideoBase64, jsTruthy]
      | some t =>
        by_cases ht : t = ""
        · -- the first field is present but falsy: the probe skips it
          cases v with
          | none => simp [predPayloadSlots, ht] at hloc
          | some vo =>
            cases hvo : vo.bytesBase64Encoded with
            | none => simp [predPayloadSlots, ht, hvo] at hloc
            | some u =>
              by_cases hu : u = ""
              · simp [predPayloadSlots, ht, hvo, hu] at hloc
              · simp only [predPayloadSlots, ht, hvo, hu] at hloc
                simp_all [probeVideoBase64, jsTruthy]
        · -- the first field is truthy: it must be the payload
          have : t = s := by
            simp only [predPayloadSlots, ht] at hloc
            rcases hloc' : (match v with
              | some vo =>
                match vo.bytesBase64Encoded with
                | some s => if s != "" then [s] else []
                | none => []
              | none => ([] : List String)) with _ | _ <;> simp_all
          subst this
          simp [probeVideoBase64, jsTruthy, ht]
  simp [videoHandler2, hprobe, jsTruthy, hs]

/-- Witness for C3 at the deepest of the three shapes. -/
theorem claim_C3_witness :
    ("QUJDRA" : String) ≠ "" ∧
    predPayloadSlots (.obj none (some ⟨some "QUJDRA"⟩)) = ["QUJDRA"] ∧
    videoHandler2 true none 200 (some [.obj none (some ⟨some "QUJDRA"⟩)]) =
      (200, .ok (mkVideoDataUri "QUJDRA")) :=
  ⟨by decide, by decide,
    claim_C3 (.obj none (some ⟨some "QUJDRA"⟩)) [] "QUJDRA" (by decide) (by decide)⟩

/-- Counterexample to C7 as stated: a POST request missing both prompt
and image, sent while the server credential is also missing, is answered
with HTTP 500 (the credential check runs first), not with the HTTP 400
the claim promises for every request with missing fields. -/
theorem claim_C7_counterexample :
    openaiHandler1 "POST" none ⟨none, none, none, none⟩ =
      .replied 500 (some "Server config error: OPENAI_API_KEY missing") ∧
    OpenAIStage1.replied 500 (some "Server config error: OPENAI_API_KEY missing") ≠
      OpenAIStage1.replied 400 (some "Missing prompt or image") := by
  constructor
  · rfl
  · decide

/-- C7 amended: the credential check precedes the field check.  A POST
request with a truthy `OPENAI_API_KEY` and a missing prompt or image is
answered 400; a POST request with the credential absent is answered 500
with the credential message irrespective of the body; and a failing
upstream OpenAI call is answered 500. -/
theorem claim_C7_amended (apiKey : Option String) (body : OpenAIBody) (e : String) :
    (jsTruthy apiKey = true →
      ¬ (jsTruthy body.prompt = true ∧ jsTruthy body.imageBase64 = true) →
      openaiHandler1 "POST" apiKey body = .replied 400 (some "Missing prompt or image")) ∧
    (apiKey = none →
      openaiHandler1 "POST" apiKey body =
        .replied 500 (some "Server config error: OPENAI_API_KEY missing")) ∧
    (openaiHandler2 (.error e)).1 = 500 := by
  refine ⟨fun hkey hmiss => ?_, fun hnone => ?_, ?_⟩
  · simp [openaiHandler1, hkey, hmiss]
  · subst hnone
    simp [openaiHandler1, jsTruthy]
  · simp [openaiHandler2]

/-- Witness for the amended C7 at concrete requests. -/
theorem claim_C7_amended_witness :
    openaiHandler1 "POST" (some "sk-test") ⟨none, some "abcd", none, none⟩ =
      .replied 400 (some "Missing prompt or image") ∧
    openaiHandler1 "POST" none ⟨some "p", some "abcd", none, none⟩ =
      .replied 500 (some "Server config error: OPENAI_API_KEY missing") ∧
    (openaiHandler2 (.error "upstream exploded")).1 = 500 :=
  ⟨(claim_C7_amended (some "sk-test") ⟨none, some "abcd", none, none⟩ "x").1
      (by decide) (by decide),
   (claim_C7_amended none ⟨some "p", some "abcd", none, none⟩ "x").2.1 rfl,
   (claim_C7_amended (some "sk-test") ⟨none, some "abcd", none, none⟩
      "upstream exploded").2.2⟩
/-- A one-character pattern is found exactly when the character occurs. -/
theorem containsSub_single (c : Char) (l : List Char) :
    containsSub [c] l = true ↔ c ∈ l := by
  induction l with
  | nil => simp [containsSub, headMatches]
  | cons x xs ih => simp [containsSub, headMatches, ih]

/-- Lists without a comma pass through `takeUntilComma` unchanged. -/
theorem takeUntilComma_eq_self {l : List Char} (h : ',' ∉ l) :
    takeUntilComma l = l := by
  induction l with
  | nil => rfl
  | cons x xs ih =>
    simp only [List.mem_cons, not_or] at h
    have hx : (x == ',') = false := beq_eq_false_iff_ne.mpr fun he => h.1 he.symm
    simp [takeUntilComma, hx, ih h.2]

/-- Dropping through the first comma of a list whose head part is
comma-free lands exactly after that comma. -/
theorem dropThroughComma_append {l₁ : List Char} (h : ',' ∉ l₁) (l₂ : List Char) :
    dropThroughComma (l₁ ++ ',' :: l₂) = l₂ := by
  induction l₁ with
  | nil => simp [dropThroughComma]
  | cons x xs ih =>
    simp only [List.mem_cons, not_or] at h
    have hx : (x == ',') = false := beq_eq_false_iff_ne.mpr fun he => h.1 he.symm
    simp [dropThroughComma, hx, ih h.2]

/-- Cleaning a data-URI-shaped string whose payload is comma-free keeps
exactly the payload. -/
theorem cleanCommaBase64_dataUri (pre s : List Char) (hpre : ',' ∉ pre)
    (hs : ',' ∉ s) :
    cleanCommaBase64 (String.mk (pre ++ ',' :: s)) = String.mk s := by
  have hinc : jsIncludes (String.mk (pre ++ ',' :: s)) "," = true := by
    show containsSub [','] (pre ++ ',' :: s) = true
    exact (containsSub_single ',' _).mpr (by simp)
  simp [cleanCommaBase64, hinc, splitCommaField1, dropThroughComma_append hpre,
    takeUntilComma_eq_self hs]

/-- Cleaning a comma-free string is the identity. -/
theorem cleanCommaBase64_plain (s : List Char) (hs : ',' ∉ s) :
    cleanCommaBase64 (String.mk s) = String.mk s := by
  have hinc : jsIncludes (String.mk s) "," = false := by
    show containsSub [','] s = false
    rw [Bool.eq_false_iff]
    intro hcon
    exact hs ((containsSub_single ',' s).mp hcon)
  simp [cleanCommaBase64, hinc]

/-- The video handler depends on the image field only through its
truthiness and its cleaned base64 form. -/
theorem videoHandler1_image_congr (method : String) (i1 i2 : String)
    (pr ar : Option String) (env : GcpEnv)
    (h1 : (i1 != "") = (i2 != "")) (h2 : cleanCommaBase64 i1 = cleanCommaBase64 i2) :
    videoHandler1 method ⟨some i1, pr, ar⟩ env =
      videoHandler1 method ⟨some i2, pr, ar⟩ env := by
  simp only [videoHandler1, jsTruthy, Option.getD_some, h1, h2]

/-- The OpenAI handler depends on the image field only through its
truthiness and its cleaned base64 form. -/
theorem openaiHandler1_image_congr (method : String) (apiKey : Option String)
    (i1 i2 : String) (pr mask : Option String) (sz : Option Int)
    (h1 : (i1 != "") = (i2 != "")) (h2 : cleanCommaBase64 i1 = cleanCommaBase64 i2) :
    openaiHandler1 method apiKey ⟨pr, some i1, mask, sz⟩ =
      openaiHandler1 method apiKey ⟨pr, some i2, mask, sz⟩ := by
  simp only [openaiHandler1, jsTruthy, Option.getD_some, h1, h2]

/-- Counterexample to C10 as stated: `split(',')[1]` keeps only the
segment between the first and second commas, not everything after the
first comma, so a bare image string that itself contains a comma and its
data-URI-prefixed variant forward different upstream payloads. -/
theorem claim_C10_counterexample :
    videoHandler1 "POST" ⟨some "a,b", some "p", none⟩
        ⟨some "proj", some "mail", some "key"⟩ =
      .callVertex ⟨"p", "b", "9:16"⟩ ∧
    videoHandler1 "POST" ⟨some "data:image/png;base64,a,b", some "p", none⟩
        ⟨some "proj", some "mail", some "key"⟩ =
      .callVertex ⟨"p", "a", "9:16"⟩ ∧
    ("b" : String) ≠ "a" := by
  refine ⟨rfl, rfl, by decide⟩

/-- C10 amended: both handlers forward the segment between the first and
second commas of the image field.  For a comma-free nonempty payload
(valid base64 never contains a comma) a bare payload and its
`data:<mime>;base64,`-prefixed variant are interchangeable: both handlers
behave identically on the two requests, and the forwarded payload is the
bare string in both cases. -/
theorem claim_C10_amended (s mime : List Char) (hs : ',' ∉ s)
    (hmime : ',' ∉ mime) (hne : s ≠ [])
    (method : String) (pr ar mask : Option String) (sz : Option Int)
    (apiKey : Option String) (env : GcpEnv) :
    videoHandler1 method
        ⟨some (String.mk ("data:".data ++ mime ++ ";base64,".data ++ s)), pr, ar⟩ env =
      videoHandler1 method ⟨some (String.mk s), pr, ar⟩ env ∧
    openaiHandler1 method apiKey
        ⟨pr, some (String.mk ("data:".data ++ mime ++ ";base64,".data ++ s)), mask, sz⟩ =
      openaiHandler1 method apiKey ⟨pr, some (String.mk s), mask, sz⟩ ∧
    cleanCommaBase64 (String.mk ("data:".data ++ mime ++ ";base64,".data ++ s)) =
      String.mk s ∧
    cleanCommaBase64 (String.mk s) = String.mk s := by
  have hshape : "data:".data ++ mime ++ ";base64,".data ++ s =
      ("data:".data ++ mime ++ ";base64".data) ++ ',' :: s := by
    have h8 : (";base64," : String).data = (";base64" : String).data ++ [','] := by decide
    simp [h8, List.append_assoc]
  have hpre : ',' ∉ "data:".data ++ mime ++ ";base64".data := by
    intro hmem
    rcases List.mem_append.mp hmem with hmem | hmem
    · rcases List.mem_append.mp hmem with hmem | hmem
      · revert hmem; decide
      · exact hmime hmem
    · revert hmem; decide
  have hclean1 : cleanCommaBase64
      (String.mk ("data:".data ++ mime ++ ";base64,".data ++ s)) = String.mk s := by
    rw [hshape]; exact cleanCommaBase64_dataUri _ s hpre hs
  have hclean2 : cleanCommaBase64 (String.mk s) = String.mk s :=
    cleanCommaBase64_plain s hs
  have hmkne : ∀ l : List Char, l ≠ [] → (String.mk l != "") = true := by
    intro l hl
    simp only [bne_iff_ne, ne_eq]
    intro he
    exact hl (by simpa using congrArg String.data he)
  have ht1 : (String.mk ("data:".data ++ mime ++ ";base64,".data ++ s) != "") = true :=
    hmkne _ (by rw [hshape]; simp)
  have ht2 : (String.mk s != "") = true := hmkne _ hne
  refine ⟨?_, ?_, hclean1, hclean2⟩
  · exact videoHandler1_image_congr method _ _ pr ar env (ht1.trans ht2.symm)
      (hclean1.trans hclean2.symm)
  · exact openaiHandler1_image_congr method apiKey _ _ pr mask sz (ht1.trans ht2.symm)
      (hclean1.trans hclean2.symm)

/-- Witness for the amended C10 at a concrete payload and mime type. -/
theorem claim_C10_amended_witness :
    (',' ∉ ("QUJD" : String).data) ∧ (("QUJD" : String).data ≠ []) ∧
    cleanCommaBase64 (String.mk ("data:".data ++ ("image/png" : String).data ++
      ";base64,".data ++ ("QUJD" : String).data)) = String.mk ("QUJD" : String).data :=
  ⟨by decide, by decide,
    (claim_C10_amended "QUJD".data "image/png".data (by decide) (by decide) (by decide)
      "POST" (some "p") none none none (some "k")
      ⟨some "proj", some "mail", some "key"⟩).2.2.1⟩

/-- Dropping the length of the first summand of an appended string leaves
the second summand. -/
theorem string_drop_append (p b : String) : (p ++ b).drop p.length = b := by
  obtain ⟨l⟩ := p
  obtain ⟨m⟩ := b
  rw [String.drop_eq]
  show String.mk ((l ++ m).drop (String.mk l).length) = String.mk m
  rw [show (String.mk l).length = l.length from rfl, List.drop_left]

/-- C8: every success data URI embeds the provider-returned base64
payload verbatim — the video handler, the Gemini extraction and the
OpenAI handler all return the fixed prefix followed by the unmodified
payload, and dropping the prefix recovers the payload exactly, so
base64-decoding the payload portion yields the same bytes as decoding
the provider string. -/
theorem claim_C8 (b : String) (hb : b ≠ "") :
    (videoHandler2 true none 200 (some [VideoPred.str b])).2 = .ok (mkVideoDataUri b) ∧
    extractImage ⟨some [⟨⟨[⟨some ⟨b⟩⟩]⟩⟩]⟩ = .ok (mkImageDataUri b) ∧
    (openaiHandler2 (.ok (some b))).2 = .ok (mkImageDataUri b) ∧
    (mkVideoDataUri b).drop ("data:video/mp4;base64," : String).length = b ∧
    (mkImageDataUri b).drop ("data:image/png;base64," : String).length = b := by
  refine ⟨?_, ?_, ?_, ?_, ?_⟩
  · simp [videoHandler2, probeVideoBase64, jsTruthy, hb]
  · simp [extractImage, List.findSome?]
  · simp [openaiHandler2, jsTruthy, hb]
  · exact string_drop_append "data:video/mp4;base64," b
  · exact string_drop_append "data:image/png;base64," b

/-- Witness for C8 at a concrete payload. -/
theorem claim_C8_witness :
    ("QUJDRA" : String) ≠ "" ∧
    (videoHandler2 true none 200 (some [VideoPred.str "QUJDRA"])).2 =
      .ok (mkVideoDataUri "QUJDRA") ∧
    (mkVideoDataUri "QUJDRA").drop ("data:video/mp4;base64," : String).length = "QUJDRA" :=
  ⟨by decide, (claim_C8 "QUJDRA" (by decide)).1, (claim_C8 "QUJDRA" (by decide)).2.2.2.1⟩

/-- A truthy stored `selectedModel` field becomes the selected model. -/
theorem storedModel_eq (st : StoredSettings) (m : String)
    (hm : st.selectedModel = some m) (hm0 : m ≠ "") :
    storedModel (some st) = m := by
  simp [storedModel, hm, jsTruthy, hm0]

/-- With a non-OpenAI, non-auto selected model and a truthy API key, the
whole flow is the Gemini pipeline on the selected model. -/
theorem generateAIImage_direct (prompt : String) (settings : Option StoredSettings)
    (apiKey : Option String)
    (rz : Option Int → Except String ResizedImages)
    (fo : OpenAIFetchBody → Except String String)
    (detect : Except String (Option String))
    (gen : String → Bool → Except String GenResponse)
    (hgpt : storedModel settings ≠ "gpt-image-1.5")
    (hauto : storedModel settings ≠ "auto")
    (hkey : jsTruthy apiKey = true) :
    generateAIImage prompt settings apiKey rz fo detect gen =
      geminiPipeline gen (storedModel settings) := by
  simp [generateAIImage, openAIPhase, hgpt, hauto, hkey]

/-- With the auto preference and a truthy API key, the flow is one
detector call followed by the Gemini pipeline on the tier chosen by the
detected count. -/
theorem generateAIImage_auto (prompt : String) (settings : Option StoredSettings)
    (apiKey : Option String)
    (rz : Option Int → Except String ResizedImages)
    (fo : OpenAIFetchBody → Except String String)
    (detect : Except String (Option String))
    (gen : String → Bool → Except String GenResponse)
    (hauto : storedModel settings = "auto") (hkey : jsTruthy apiKey = true) :
    generateAIImage prompt settings apiKey rz fo detect gen =
      ((geminiPipeline gen
          (if detectPeopleCount detect > 1 then proImageModel else flashImageModel)).1,
        CallEvent.detectorCall ::
          (geminiPipeline gen
            (if detectPeopleCount detect > 1 then proImageModel else flashImageModel)).2) := by
  have hgpt : storedModel settings ≠ "gpt-image-1.5" := by rw [hauto]; decide
  simp [generateAIImage, openAIPhase, hgpt, hauto, hkey]

/-- The flash tier is always called by the pipeline on the flash model. -/
theorem flash_call_mem (gen : String → Bool → Except String GenResponse) :
    CallEvent.geminiCall flashImageModel false ∈ (geminiPipeline gen flashImageModel).2 := by
  have hp : jsIncludes flashImageModel "pro" = false := by decide
  cases h1 : gen flashImageModel false <;> simp [geminiPipeline, hp, h1]

/-- C1: with a selected Gemini model of the pro tier (id containing the
substring pro) and a failing pro-tier call, the flow retries once with
the flash tier: a flash success makes the final result the extraction of
the flash response, a flash failure propagates the flash error unchanged;
and with a flash-tier primary selection a flash failure propagates
unchanged as well. -/
theorem claim_C1 (prompt : String) (st : StoredSettings) (m : String)
    (apiKey : Option String)
    (rz : Option Int → Except String ResizedImages)
    (fo : OpenAIFetchBody → Except String String)
    (detect : Except String (Option String))
    (gen : String → Bool → Except String GenResponse)
    (hm : st.selectedModel = some m) (hm0 : m ≠ "")
    (hkey : jsTruthy apiKey = true) :
    (jsIncludes m "pro" = true →
      ∀ e1 r, gen proImageModel true = .error e1 → gen flashImageModel false = .ok r →
        (generateAIImage prompt (some st) apiKey rz fo detect gen).1 = extractImage r) ∧
    (jsIncludes m "pro" = true →
      ∀ e1 e2, gen proImageModel true = .error e1 → gen flashImageModel false = .error e2 →
        (generateAIImage prompt (some st) apiKey rz fo detect gen).1 = .error e2) ∧
    (jsIncludes m "pro" = false → m ≠ "gpt-image-1.5" → m ≠ "auto" →
      ∀ e, gen flashImageModel false = .error e →
        (generateAIImage prompt (some st) apiKey rz fo detect gen).1 = .error e) := by
  have hsm : storedModel (some st) = m := storedModel_eq st m hm hm0
  refine ⟨fun hpro e1 r h1 h2 => ?_, fun hpro e1 e2 h1 h2 => ?_,
    fun hnpro hgpt hauto e h1 => ?_⟩
  · have hgpt : m ≠ "gpt-image-1.5" := by rintro rfl; exact absurd hpro (by decide)
    have hauto : m ≠ "auto" := by rintro rfl; exact absurd hpro (by decide)
    rw [generateAIImage_direct prompt (some st) apiKey rz fo detect gen
      (hsm ▸ hgpt) (hsm ▸ hauto) hkey, hsm]
    simp [geminiPipeline, hpro, h1, h2]
  · have hgpt : m ≠ "gpt-image-1.5" := by rintro rfl; exact absurd hpro (by decide)
    have hauto : m ≠ "auto" := by rintro rfl; exact absurd hpro (by decide)
    rw [generateAIImage_direct prompt (some st) apiKey rz fo detect gen
      (hsm ▸ hgpt) (hsm ▸ hauto) hkey, hsm]
    simp [geminiPipeline, hpro, h1, h2]
  · rw [generateAIImage_direct prompt (some st) apiKey rz fo detect gen
      (hsm ▸ hgpt) (hsm ▸ hauto) hkey, hsm]
    simp [geminiPipeline, hnpro, h1]

/-- Witness for C1: a pro preference, a failing pro tier and a succeeding
flash tier yield exactly the extraction of the flash response. -/
theorem claim_C1_witness :
    (generateAIImage "edit" (some ⟨some "gemini-3-pro-image-preview", none⟩) (some "k")
        (fun _ => .error "unused") (fun _ => .error "unused") (.error "unused")
        (fun mo _ => if mo = proImageModel then .error "pro down"
          else .ok ⟨some [⟨⟨[⟨some ⟨"IMG64"⟩⟩]⟩⟩]⟩)).1 =
      extractImage ⟨some [⟨⟨[⟨some ⟨"IMG64"⟩⟩]⟩⟩]⟩ :=
  (claim_C1 "edit" ⟨some "gemini-3-pro-image-preview", none⟩ "gemini-3-pro-image-preview"
      (some "k") (fun _ => .error "unused") (fun _ => .error "unused") (.error "unused")
      (fun mo _ => if mo = proImageModel then .error "pro down"
        else .ok ⟨some [⟨⟨[⟨some ⟨"IMG64"⟩⟩]⟩⟩]⟩)
      rfl (by decide) (by decide)).1 (by decide) "pro down"
    ⟨some [⟨⟨[⟨some ⟨"IMG64"⟩⟩]⟩⟩]⟩ rfl rfl

/-- C2: with the OpenAI model selected and any failure of the OpenAI path
— a preprocessing (resize) error or a failed fetch of the OpenAI endpoint
(the client throws on any non-2xx response) — the flow falls back to the
Gemini flash pipeline: the final result is the Gemini flash result, not
the OpenAI error, and the Gemini flash tier is actually called. -/
theorem claim_C2 (prompt : String) (settings : Option StoredSettings)
    (apiKey : Option String)
    (rz : Option Int → Except String ResizedImages)
    (fo : OpenAIFetchBody → Except String String)
    (detect : Except String (Option String))
    (gen : String → Bool → Except String GenResponse)
    (hm : storedModel settings = "gpt-image-1.5") (hkey : jsTruthy apiKey = true)
    (hfail : (∃ e, rz (storedGptSize settings) = .error e) ∨
      (∃ imgs e, rz (storedGptSize settings) = .ok imgs ∧
        fo { prompt := prompt ++ openAISuffix, imageBase64 := imgs.image,
             maskBase64 := imgs.mask, size := storedGptSize settings } = .error e)) :
    (generateAIImage prompt settings apiKey rz fo detect gen).1 =
      (geminiPipeline gen flashImageModel).1 ∧
    CallEvent.geminiCall flashImageModel false ∈
      (generateAIImage prompt settings apiKey rz fo detect gen).2 := by
  have hmem := flash_call_mem gen
  rcases hfail with ⟨e, he⟩ | ⟨imgs, e, hok, he⟩
  · have hphase : openAIPhase prompt (storedModel settings) (storedGptSize settings) rz fo =
        (none, "gemini-2.5-flash-image", [CallEvent.resizeCall]) := by
      rw [hm]; simp [openAIPhase, he]
    constructor
    · simp [generateAIImage, hphase, hkey, flashImageModel]
    · simp only [generateAIImage, hphase, hkey]
      simp [flashImageModel] at hmem ⊢
      exact hmem
  · have hphase : openAIPhase prompt (storedModel settings) (storedGptSize settings) rz fo =
        (none, "gemini-2.5-flash-image", [CallEvent.resizeCall, CallEvent.openaiFetch]) := by
      rw [hm]; simp [openAIPhase, hok, he]
    constructor
    · simp [generateAIImage, hphase, hkey, flashImageModel]
    · simp only [generateAIImage, hphase, hkey]
      simp [flashImageModel] at hmem ⊢
      exact hmem

/-- Witness for C2: a failing resize with the OpenAI model selected ends
in the Gemini flash pipeline result with the flash tier called. -/
theorem claim_C2_witness :
    (generateAIImage "edit" (some ⟨some "gpt-image-1.5", none⟩) (some "k")
        (fun _ => .error "resize fail") (fun _ => .error "unused") (.error "unused")
        (fun _ _ => .ok ⟨none⟩)).1 =
      (geminiPipeline (fun _ _ => .ok ⟨none⟩) flashImageModel).1 ∧
    CallEvent.geminiCall flashImageModel false ∈
      (generateAIImage "edit" (some ⟨some "gpt-image-1.5", none⟩) (some "k")
        (fun _ => .error "resize fail") (fun _ => .error "unused") (.error "unused")
        (fun _ _ => .ok ⟨none⟩)).2 :=
  claim_C2 "edit" (some ⟨some "gpt-image-1.5", none⟩) (some "k")
    (fun _ => .error "resize fail") (fun _ => .error "unused") (.error "unused")
    (fun _ _ => .ok ⟨none⟩) (by decide) (by decide)
    (Or.inl ⟨"resize fail", rfl⟩)

/-- The detector event never occurs in the Gemini pipeline trace. -/
theorem detector_not_in_pipeline (gen : String → Bool → Except String GenResponse)
    (r : String) : CallEvent.detectorCall ∉ (geminiPipeline gen r).2 := by
  by_cases hp : jsIncludes r "pro" = true
  · cases h1 : gen proImageModel true with
    | ok rr => simp [geminiPipeline, hp, h1]
    | error e => cases h2 : gen flashImageModel false <;> simp [geminiPipeline, hp, h1, h2]
  · rw [Bool.not_eq_true] at hp
    cases h1 : gen flashImageModel false <;> simp [geminiPipeline, hp, h1]

/-- C4: with the stored preference auto and a truthy API key, the
detector is invoked exactly once; a detected count strictly greater than
one selects the pro tier and any other count the flash tier; and a
detector that throws, or whose trimmed text does not parse as an integer,
yields the default count of one (hence the flash tier). -/
theorem claim_C4 (prompt : String) (settings : Option StoredSettings)
    (apiKey : Option String)
    (rz : Option Int → Except String ResizedImages)
    (fo : OpenAIFetchBody → Except String String)
    (detect : Except String (Option String))
    (gen : String → Bool → Except String GenResponse)
    (hauto : storedModel settings = "auto") (hkey : jsTruthy apiKey = true) :
    ((generateAIImage prompt settings apiKey rz fo detect gen).2.count
      CallEvent.detectorCall = 1) ∧
    (detectPeopleCount detect > 1 →
      (generateAIImage prompt settings apiKey rz fo detect gen).1 =
        (geminiPipeline gen proImageModel).1) ∧
    (¬ detectPeopleCount detect > 1 →
      (generateAIImage prompt settings apiKey rz fo detect gen).1 =
        (geminiPipeline gen flashImageModel).1) ∧
    (∀ e, detect = .error e → detectPeopleCount detect = 1) ∧
    (∀ t, detect = .ok t → parseIntJS (jsTrim (t.getD "")) = none →
      detectPeopleCount detect = 1) := by
  rw [generateAIImage_auto prompt settings apiKey rz fo detect gen hauto hkey]
  refine ⟨?_, fun h => by simp [h], fun h => by simp [h], fun e he => by
    simp [detectPeopleCount, he], fun t ht hp => ?_⟩
  · rw [List.count_cons_self, List.count_eq_zero.mpr (detector_not_in_pipeline gen _)]
  · subst ht
    by_cases h : jsTruthy t = true <;> simp [detectPeopleCount, h, hp]

/-- Witness for C4: a throwing detector under the auto preference gives
one detector call and the default count of one. -/
theorem claim_C4_witness :
    ((generateAIImage "edit" (some ⟨some "auto", none⟩) (some "k")
        (fun _ => .error "unused") (fun _ => .error "unused") (.error "detector down")
        (fun _ _ => .ok ⟨none⟩)).2.count CallEvent.detectorCall = 1) ∧
    detectPeopleCount (.error "detector down") = 1 :=
  ⟨(claim_C4 "edit" (some ⟨some "auto", none⟩) (some "k")
      (fun _ => .error "unused") (fun _ => .error "unused") (.error "detector down")
      (fun _ _ => .ok ⟨none⟩) (by decide) (by decide)).1,
   (claim_C4 "edit" (some ⟨some "auto", none⟩) (some "k")
      (fun _ => .error "unused") (fun _ => .error "unused") (.error "detector down")
      (fun _ _ => .ok ⟨none⟩) (by decide) (by decide)).2.2.2.1 "detector down" rfl⟩

/-- Every Gemini call event of the pipeline uses one of the two fixed
model ids. -/
theorem pipeline_models (gen : String → Bool → Except String GenResponse)
    (r m : String) (c : Bool)
    (hmem : CallEvent.geminiCall m c ∈ (geminiPipeline gen r).2) :
    m = proImageModel ∨ m = flashImageModel := by
  by_cases hp : jsIncludes r "pro" = true
  · cases h1 : gen proImageModel true with
    | ok rr =>
      simp [geminiPipeline, hp, h1] at hmem
      exact Or.inl hmem.1
    | error e =>
      cases h2 : gen flashImageModel false <;>
        · simp [geminiPipeline, hp, h1, h2] at hmem
          rcases hmem with h | h
          exacts [Or.inl h.1, Or.inr h.1]
  · rw [Bool.not_eq_true] at hp
    cases h1 : gen flashImageModel false <;>
      · simp [geminiPipeline, hp, h1] at hmem
        exact Or.inr hmem.1

/-- The OpenAI branch never emits a Gemini call event. -/
theorem phase_no_gemini (prompt model0 : String) (gsz : Option Int)
    (rz : Option Int → Except String ResizedImages)
    (fo : OpenAIFetchBody → Except String String) (m : String) (c : Bool) :
    CallEvent.geminiCall m c ∉ (openAIPhase prompt model0 gsz rz fo).2.2 := by
  by_cases h : model0 = "gpt-image-1.5"
  · cases h1 : rz gsz with
    | ok imgs =>
      cases h2 : fo ⟨prompt ++ openAISuffix, imgs.image, imgs.mask, gsz⟩ <;>
        simp [openAIPhase, h, h1, h2]
    | error e => simp [openAIPhase, h, h1]
  · simp [openAIPhase, h]

/-- C9: every Gemini generateContent image call issued anywhere in the
flow uses one of the two fixed model ids (so an arbitrary stored
preference string is never itself passed as a model id), and the first
call of the Gemini pipeline is the pro id exactly when the resolved model
string contains the substring pro (the once-only fallback retry of C1 is
the flash id). -/
theorem claim_C9 :
    (∀ (prompt : String) (settings : Option StoredSettings) (apiKey : Option String)
      (rz : Option Int → Except String ResizedImages)
      (fo : OpenAIFetchBody → Except String String)
      (detect : Except String (Option String))
      (gen : String → Bool → Except String GenResponse) (m : String) (c : Bool),
      CallEvent.geminiCall m c ∈ (generateAIImage prompt settings apiKey rz fo detect gen).2 →
      m = proImageModel ∨ m = flashImageModel) ∧
    (∀ (gen : String → Bool → Except String GenResponse) (r : String),
      (geminiPipeline gen r).2.head? = some (CallEvent.geminiCall proImageModel true) ↔
        jsIncludes r "pro" = true) := by
  constructor
  · intro prompt settings apiKey rz fo detect gen m c hmem
    have hnog := phase_no_gemini prompt (storedModel settings) (storedGptSize settings) rz fo m c
    rcases hph : openAIPhase prompt (storedModel settings) (storedGptSize settings) rz fo with
      ⟨res, model1, tr⟩
    rw [hph] at hnog
    simp only at hnog
    unfold generateAIImage at hmem
    rw [hph] at hmem
    cases res with
    | some img =>
      simp only at hmem
      exact absurd hmem hnog
    | none =>
      by_cases hk : jsTruthy apiKey = true
      · simp only [hk, if_true] at hmem
        rcases List.mem_append.mp hmem with h | h
        · rcases List.mem_append.mp h with h | h
          · exact absurd h hnog
          · by_cases ha : model1 = "auto" <;> simp [ha] at h
        · exact pipeline_models gen _ m c h
      · rw [Bool.not_eq_true] at hk
        simp only [hk, Bool.false_eq_true, if_false] at hmem
        exact absurd hmem hnog
  · intro gen r
    by_cases hp : jsIncludes r "pro" = true
    · cases h1 : gen proImageModel true with
      | ok rr => simp [geminiPipeline, hp, h1]
      | error e =>
        cases h2 : gen flashImageModel false <;> simp [geminiPipeline, hp, h1, h2]
    · rw [Bool.not_eq_true] at hp
      cases h1 : gen flashImageModel false <;> simp [geminiPipeline, hp, h1]

/-- Witness for C9: a concrete flow whose sole Gemini call is the pro id,
and the pipeline head on a custom id containing pro. -/
theorem claim_C9_witness :
    (proImageModel = proImageModel ∨ proImageModel = flashImageModel) ∧
    jsIncludes "my-custom-pro-model" "pro" = true :=
  ⟨claim_C9.1 "edit" (some ⟨some "gemini-3-pro-image-preview", none⟩) (some "k")
      (fun _ => .error "unused") (fun _ => .error "unused") (.error "unused")
      (fun _ _ => .ok ⟨none⟩) proImageModel true (by decide),
   (claim_C9.2 (fun _ _ => .ok ⟨none⟩) "my-custom-pro-model").mp (by decide)⟩

/-- Two-sided bound of JS rounding: twice the signed error of
`jsRound n d * d` against `n` lies in `[-d, d]`. -/
theorem jsRound_bound (n d : Nat) (hd : 0 < d) :
    -(d : ℤ) ≤ 2 * ((jsRound n d : ℤ) * d - n) ∧
      2 * ((jsRound n d : ℤ) * d - n) ≤ d := by
  have hE := Nat.div_add_mod (2 * n + d) (2 * d)
  have hR : (2 * n + d) % (2 * d) < 2 * d := Nat.mod_lt _ (by omega)
  have hE' : (2 : ℤ) * d * ((2 * n + d) / (2 * d) : Nat) + ((2 * n + d) % (2 * d) : Nat) =
      2 * n + d := by exact_mod_cast hE
  have hR' : (((2 * n + d) % (2 * d) : Nat) : ℤ) < 2 * d := by exact_mod_cast hR
  have hr0 : (0 : ℤ) ≤ (((2 * n + d) % (2 * d) : Nat) : ℤ) := Int.natCast_nonneg _
  have hkey : 2 * ((jsRound n d : ℤ) * d - n) =
      d - (((2 * n + d) % (2 * d) : Nat) : ℤ) := by
    show 2 * ((((2 * n + d) / (2 * d) : Nat) : ℤ) * d - n) = _
    linarith [hE']
  constructor <;> rw [hkey] <;> linarith

/-- C5: the preprocessor always produces a `maxDim × maxDim` image canvas
and an equally sized fully transparent mask canvas; the drawn region is
centered (equal left/right and top/bottom margins); the drawn region's
aspect ratio matches the source within integer rounding (twice the cross
product defect is at most the longer source edge); and a source fitting
inside the target is drawn at its original size. -/
theorem claim_C5 (w h D : Nat) (hw : 0 < w) (hh : 0 < h) :
    (resizeImageForOpenAI w h D).canvasW = D ∧
    (resizeImageForOpenAI w h D).canvasH = D ∧
    (resizeImageForOpenAI w h D).maskW = D ∧
    (resizeImageForOpenAI w h D).maskH = D ∧
    (resizeImageForOpenAI w h D).maskTransparent = true ∧
    (resizeImageForOpenAI w h D).drawX =
      ((resizeImageForOpenAI w h D).canvasW : ℚ) -
        ((resizeImageForOpenAI w h D).drawX + ((resizeImageForOpenAI w h D).drawW : ℚ)) ∧
    (resizeImageForOpenAI w h D).drawY =
      ((resizeImageForOpenAI w h D).canvasH : ℚ) -
        ((resizeImageForOpenAI w h D).drawY + ((resizeImageForOpenAI w h D).drawH : ℚ)) ∧
    2 * |((resizeImageForOpenAI w h D).drawW : ℤ) * h -
        ((resizeImageForOpenAI w h D).drawH : ℤ) * w| ≤ (max w h : ℤ) ∧
    (w ≤ D → h ≤ D →
      (resizeImageForOpenAI w h D).drawW = w ∧ (resizeImageForOpenAI w h D).drawH = h) := by
  have hwmax : (w : ℤ) ≤ max (w : ℤ) (h : ℤ) := le_max_left _ _
  have hhmax : (h : ℤ) ≤ max (w : ℤ) (h : ℤ) := le_max_right _ _
  by_cases h1 : w > h
  · by_cases h2 : w > D
    · have hres : resizeImageForOpenAI w h D =
          ⟨D, D, D, jsRound (D * h) w, ((D : ℚ) - (D : ℚ)) / 2,
            ((D : ℚ) - (jsRound (D * h) w : ℚ)) / 2, D, D, true⟩ := by
        unfold resizeImageForOpenAI
        rw [if_pos h1, if_pos h2]
      rw [hres]
      refine ⟨rfl, rfl, rfl, rfl, rfl, by ring, by ring, ?_, fun hwD _ => by omega⟩
      have hb := jsRound_bound (D * h) w hw
      push_cast at hb
      rcases abs_cases ((D : ℤ) * h - (jsRound (D * h) w : ℤ) * w) with ⟨he, _⟩ | ⟨he, _⟩ <;>
        rw [he]
      · linarith [hb.1, hwmax]
      · linarith [hb.2, hwmax]
    · have hres : resizeImageForOpenAI w h D =
          ⟨D, D, w, h, ((D : ℚ) - (w : ℚ)) / 2, ((D : ℚ) - (h : ℚ)) / 2, D, D, true⟩ := by
        unfold resizeImageForOpenAI
        rw [if_pos h1, if_neg h2]
      rw [hres]
      refine ⟨rfl, rfl, rfl, rfl, rfl, by ring, by ring, ?_, fun _ _ => ⟨rfl, rfl⟩⟩
      have hz : ((w : ℤ) * h - (h : ℤ) * w) = 0 := by ring
      rw [hz, abs_zero, mul_zero]
      positivity
  · by_cases h3 : h > D
    · have hres : resizeImageForOpenAI w h D =
          ⟨D, D, jsRound (D * w) h, D, ((D : ℚ) - (jsRound (D * w) h : ℚ)) / 2,
            ((D : ℚ) - (D : ℚ)) / 2, D, D, true⟩ := by
        unfold resizeImageForOpenAI
        rw [if_neg h1, if_pos h3]
      rw [hres]
      refine ⟨rfl, rfl, rfl, rfl, rfl, by ring, by ring, ?_, fun _ hhD => by omega⟩
      have hb := jsRound_bound (D * w) h hh
      push_cast at hb
      rcases abs_cases ((jsRound (D * w) h : ℤ) * h - (D : ℤ) * w) with ⟨he, _⟩ | ⟨he, _⟩ <;>
        rw [he]
      · linarith [hb.2, hhmax]
      · linarith [hb.1, hhmax]
    · have hres : resizeImageForOpenAI w h D =
          ⟨D, D, w, h, ((D : ℚ) - (w : ℚ)) / 2, ((D : ℚ) - (h : ℚ)) / 2, D, D, true⟩ := by
        unfold resizeImageForOpenAI
        rw [if_neg h1, if_neg h3]
      rw [hres]
      refine ⟨rfl, rfl, rfl, rfl, rfl, by ring, by ring, ?_, fun _ _ => ⟨rfl, rfl⟩⟩
      have hz : ((w : ℤ) * h - (h : ℤ) * w) = 0 := by ring
      rw [hz, abs_zero, mul_zero]
      positivity

/-- Witness for C5 at a concrete 3000 by 2000 source and target 1024. -/
theorem claim_C5_witness :
    (0 < 3000 ∧ 0 < 2000) ∧
    (resizeImageForOpenAI 3000 2000 1024).canvasW = 1024 ∧
    (resizeImageForOpenAI 3000 2000 1024).drawW = 1024 ∧
    (resizeImageForOpenAI 3000 2000 1024).drawH = 683 ∧
    2 * |((resizeImageForOpenAI 3000 2000 1024).drawW : ℤ) * 2000 -
        ((resizeImageForOpenAI 3000 2000 1024).drawH : ℤ) * 3000| ≤ (max 3000 2000 : ℤ) :=
  ⟨⟨by decide, by decide⟩, (claim_C5 3000 2000 1024 (by decide) (by decide)).1,
    by decide, by decide,
    (claim_C5 3000 2000 1024 (by decide) (by decide)).2.2.2.2.2.2.2.1⟩
